import Mathlib

/-!
Shallow embedding of `src/examples/sanitizer_examples.cpp`: a catalog of
intentionally defective demonstration routines (addressing errors, data
races, uninitialized reads, undefined-behavior triggers) plus an entry
point that, by default, invokes none of them.  Each routine is embedded
from its source text: guarded operations return `Except`, loops become
folds over `List.range`, effects on the two process-wide globals become
explicit state passing, and order-sensitive behaviour (heap releases,
reads/writes of flagged locations, thread spawn/join) is captured as
event traces read off the routine bodies.
-/

/-- The four defect categories the source file groups its routines into
(its four comment-delimited sections: ASan, TSan, MSan, UBSan). -/
inductive Category
  | Addressing
  | Threading
  | Uninitialized
  | UndefinedBehavior
  deriving DecidableEq, Repr

/-- One identifier per routine defined in the source file and listed in
`main`'s commented-out invocation list. -/
inductive RoutineId
  | asanBufferOverflow
  | asanUseAfterFree
  | asanDoubleFree
  | asanMemoryLeak
  | tsanDataRaceExample
  | tsanVectorRaceExample
  | msanUninitializedRead
  | msanUninitializedArray
  | msanUninitializedStruct
  | ubsanSignedOverflow
  | ubsanNullPointer
  | ubsanDivisionByZero
  | ubsanShiftOutOfBounds
  | ubsanArrayBounds
  | ubsanMisalignedPointer
  | ubsanInvalidCast
  deriving DecidableEq, Repr

/-- The section of the source file each routine is defined in. -/
def category : RoutineId → Category
  | .asanBufferOverflow => .Addressing
  | .asanUseAfterFree => .Addressing
  | .asanDoubleFree => .Addressing
  | .asanMemoryLeak => .Addressing
  | .tsanDataRaceExample => .Threading
  | .tsanVectorRaceExample => .Threading
  | .msanUninitializedRead => .Uninitialized
  | .msanUninitializedArray => .Uninitialized
  | .msanUninitializedStruct => .Uninitialized
  | .ubsanSignedOverflow => .UndefinedBehavior
  | .ubsanNullPointer => .UndefinedBehavior
  | .ubsanDivisionByZero => .UndefinedBehavior
  | .ubsanShiftOutOfBounds => .UndefinedBehavior
  | .ubsanArrayBounds => .UndefinedBehavior
  | .ubsanMisalignedPointer => .UndefinedBehavior
  | .ubsanInvalidCast => .UndefinedBehavior

/-- The full example catalog, in source order: the sixteen routines the
file defines and `main` lists. -/
def catalog : List RoutineId :=
  [.asanBufferOverflow, .asanUseAfterFree, .asanDoubleFree, .asanMemoryLeak,
   .tsanDataRaceExample, .tsanVectorRaceExample,
   .msanUninitializedRead, .msanUninitializedArray, .msanUninitializedStruct,
   .ubsanSignedOverflow, .ubsanNullPointer, .ubsanDivisionByZero,
   .ubsanShiftOutOfBounds, .ubsanArrayBounds, .ubsanMisalignedPointer,
   .ubsanInvalidCast]

/-- Number of catalog routines in a given category. -/
def categoryCount (c : Category) : Nat :=
  (catalog.filter (fun r => category r = c)).length

/-- The list of the four category labels. -/
def allCategories : List Category :=
  [.Addressing, .Threading, .Uninitialized, .UndefinedBehavior]

/-- The process-wide mutable state of the program: the global
`shared_counter` (line 47) and the global `shared_vec` (line 65). -/
structure Globals where
  shared_counter : Int
  shared_vec : List Int
  deriving DecidableEq, Repr

/-- Result of running the entry point: the (unchanged) globals, the text
written to standard output, and the exit status. -/
structure MainResult where
  globals : Globals
  stdout : String
  exitStatus : Nat
  deriving DecidableEq, Repr

/-- The entry point (`main`, lines 171-203): prints the banner, invokes
no routine (every call is commented out), prints the trailer and
returns 0.  (Named `mainEntry` because Lean reserves `main` for an `IO`
entry point.) -/
def mainEntry (g : Globals) : MainResult :=
  { globals := g
    stdout := "Sanitizer Examples\n" ++ "==================\n\n" ++
      "No examples executed. Uncomment examples in main() to test.\n"
    exitStatus := 0 }

/-- Runtime faults that the guarded embeddings of the defective
operations can signal. -/
inductive RtError
  | outOfBounds
  | divByZero
  | nullDeref
  deriving DecidableEq, Repr

/-- Guarded write into a fixed-size array: the in-bounds branch updates
the element, the out-of-bounds branch signals the fault. -/
def arrayWrite (arr : List Int) (idx : Nat) (v : Int) :
    Except RtError (List Int) :=
  if idx < arr.length then .ok (arr.set idx v) else .error .outOfBounds

/-- Guarded read from a fixed-size array. -/
def arrayRead (arr : List Int) (idx : Nat) : Except RtError Int :=
  if h : idx < arr.length then .ok (arr.get ⟨idx, h⟩)
  else .error .outOfBounds

/-- Guarded C integer division (truncating, as in C). -/
def intDiv (x y : Int) : Except RtError Int :=
  if y = 0 then .error .divByZero else .ok (Int.tdiv x y)

/-- Size of the local array `int arr[10]` in `asan_buffer_overflow`
(line 16). -/
def asan_buffer_overflow.arraySize : Nat := 10

/-- Index of the defective write `arr[15] = 42` in
`asan_buffer_overflow` (line 17). -/
def asan_buffer_overflow.writeIndex : Nat := 15

/-- `asan_buffer_overflow` (lines 15-19): given the (uninitialized,
hence arbitrary) contents of its 10-element local array, perform the
write `arr[15] = 42` through the guarded array-write operation. -/
def asan_buffer_overflow (arr : List Int) : Except RtError (List Int) :=
  arrayWrite arr asan_buffer_overflow.writeIndex 42

/-- An event on the heap: an allocation producing a handle holding a
value, or a release of a handle.  Handles number allocations in order. -/
inductive HeapEvent
  | alloc (handle : Nat) (v : Int)
  | free (handle : Nat)
  deriving DecidableEq, Repr

/-- The heap events performed by `asan_double_free` (lines 30-34):
`new int(42)` yields handle 0, which is then released twice. -/
def asan_double_free.trace : List HeapEvent :=
  [.alloc 0 42, .free 0, .free 0]

/-- The heap events performed by `asan_use_after_free` (lines 22-27):
allocate handle 0 and release it once (the subsequent writes/reads go
through the dangling pointer, not the allocator). -/
def asan_use_after_free.trace : List HeapEvent :=
  [.alloc 0 42, .free 0]

/-- The heap events performed by `asan_memory_leak` (lines 37-41):
allocate and never release. -/
def asan_memory_leak.trace : List HeapEvent :=
  [.alloc 0 0]

/-- The handles released by a heap trace, in order. -/
def freedHandles (tr : List HeapEvent) : List Nat :=
  tr.filterMap fun e => match e with
    | .free h => some h
    | _ => none

/-- An operation a spawned task performs on the shared globals; the
constructors after `pushVec` are the coordination primitives (none of
which occur in this program's task bodies). -/
inductive SharedOp
  | incCounter
  | pushVec (v : Int)
  | lockMutex
  | unlockMutex
  | atomicRmw
  | memFence
  deriving DecidableEq, Repr

/-- Whether a shared-state operation is a coordination primitive (a
lock, an atomic operation or a fence). -/
def isSyncOp : SharedOp → Bool
  | .lockMutex => true
  | .unlockMutex => true
  | .atomicRmw => true
  | .memFence => true
  | _ => false

/-- `tsan_data_race_increment` (lines 50-54) as a state transformer:
the loop `for (i = 0; i < 100000; ++i) shared_counter++` folded over
its iteration space. -/
def tsan_data_race_increment (counter : Int) : Int :=
  (List.range 100000).foldl (fun c _ => c + 1) counter

/-- The shared-state operations `tsan_data_race_increment` performs,
in order: one unsynchronized increment per loop iteration. -/
def tsan_data_race_increment.body : List SharedOp :=
  (List.range 100000).map fun _ => .incCounter

/-- `tsan_vector_race` (lines 67-71) as a state transformer: the loop
`for (i = 0; i < 1000; ++i) shared_vec.push_back(i)` folded over its
iteration space. -/
def tsan_vector_race (vec : List Int) : List Int :=
  (List.range 1000).foldl (fun v i => v ++ [Int.ofNat i]) vec

/-- The shared-state operations `tsan_vector_race` performs, in order:
one unsynchronized append per loop iteration. -/
def tsan_vector_race.body : List SharedOp :=
  (List.range 1000).map fun i => .pushVec (Int.ofNat i)

/-- An event of a threading demonstration: spawning a task (with the
shared-state operations its body performs), joining it, or observing
the final shared state (printing it). -/
inductive DemoEvent
  | spawn (tid : Nat) (body : List SharedOp)
  | join (tid : Nat)
  | observe (what : String)
  deriving DecidableEq, Repr

/-- The events of `tsan_data_race_example` (lines 56-62): spawn `t1`
and `t2` running `tsan_data_race_increment`, join both, then print
`shared_counter`. -/
def tsan_data_race_example.trace : List DemoEvent :=
  [.spawn 1 tsan_data_race_increment.body,
   .spawn 2 tsan_data_race_increment.body,
   .join 1, .join 2,
   .observe "shared_counter"]

/-- The events of `tsan_vector_race_example` (lines 73-78): spawn `t1`
and `t2` running `tsan_vector_race` and join both. -/
def tsan_vector_race_example.trace : List DemoEvent :=
  [.spawn 1 tsan_vector_race.body,
   .spawn 2 tsan_vector_race.body,
   .join 1, .join 2]

/-- Number of tasks a demonstration trace spawns. -/
def spawnCount (tr : List DemoEvent) : Nat :=
  (tr.filterMap fun e => match e with
    | .spawn tid _ => some tid
    | _ => none).length

/-- The bodies of the tasks a demonstration trace spawns. -/
def spawnedBodies (tr : List DemoEvent) : List (List SharedOp) :=
  tr.filterMap fun e => match e with
    | .spawn _ b => some b
    | _ => none

/-- Walks a demonstration trace keeping the list of spawned but not
yet joined task ids; `true` iff every `observe` event happens while no
spawned task is still pending (i.e. only after all joins). -/
def observesAfterJoins : List DemoEvent → List Nat → Bool
  | [], _ => true
  | .spawn tid _ :: rest, pending => observesAfterJoins rest (tid :: pending)
  | .join tid :: rest, pending => observesAfterJoins rest (pending.erase tid)
  | .observe _ :: rest, pending =>
      pending.isEmpty && observesAfterJoins rest pending

/-- Walks a demonstration trace keeping the list of spawned but not
yet joined task ids; `true` iff every `join` event joins a task that
was spawned earlier and is still pending, and no spawned task is left
unjoined when the routine returns — i.e. the calling routine blocks
until every task it spawned has completed. -/
def allSpawnedJoined : List DemoEvent → List Nat → Bool
  | [], pending => pending.isEmpty
  | .spawn tid _ :: rest, pending => allSpawnedJoined rest (tid :: pending)
  | .join tid :: rest, pending =>
      pending.contains tid && allSpawnedJoined rest (pending.erase tid)
  | .observe _ :: rest, pending => allSpawnedJoined rest pending

/-- The storage locations the uninitialized-memory routines read
without initializing: the local scalar `x` of
`msan_uninitialized_read`, the element `arr[0]` of
`msan_uninitialized_array`, and the field `s.value` of
`msan_uninitialized_struct`. -/
inductive MemLoc
  | localX
  | arrElem0
  | structValue
  deriving DecidableEq, Repr

/-- An operation of a straight-line routine body on local storage:
writing a location, reading it, or emitting output text. -/
inductive MemOp
  | write (loc : MemLoc) (v : Int)
  | read (loc : MemLoc)
  | output (s : String)
  deriving DecidableEq, Repr

/-- The flagged location of `msan_uninitialized_read`: the local `x`. -/
def msan_uninitialized_read.flagged : MemLoc := .localX

/-- The operations of `msan_uninitialized_read` (lines 85-90), given
the arbitrary value `xVal` the uninitialized `x` happens to hold:
declare `x` (no write), read it in the condition `x > 0`, and if the
condition holds print it (reading it again). -/
def msan_uninitialized_read.trace (xVal : Int) : List MemOp :=
  .read .localX ::
    (if 0 < xVal then
      [.output "Uninitialized read: ", .read .localX]
     else [])

/-- The flagged location of `msan_uninitialized_array`: `arr[0]`. -/
def msan_uninitialized_array.flagged : MemLoc := .arrElem0

/-- The operations of `msan_uninitialized_array` (lines 93-97):
declare `arr` (no write) and print `arr[0]`. -/
def msan_uninitialized_array.trace : List MemOp :=
  [.output "Uninitialized array: ", .read .arrElem0]

/-- The flagged location of `msan_uninitialized_struct`: `s.value`. -/
def msan_uninitialized_struct.flagged : MemLoc := .structValue

/-- The operations of `msan_uninitialized_struct` (lines 105-109):
declare `s` (no write) and print `s.value`. -/
def msan_uninitialized_struct.trace : List MemOp :=
  [.output "Uninitialized struct: ", .read .structValue]

/-- Whether a memory operation writes the given location. -/
def isWriteTo (loc : MemLoc) : MemOp → Bool
  | .write l _ => l = loc
  | _ => false

/-- Whether a memory operation reads the given location. -/
def isReadOf (loc : MemLoc) : MemOp → Bool
  | .read l => l = loc
  | _ => false

/-- The writes to `loc` that occur strictly before the first read of
`loc` in the operation sequence. -/
def writesBeforeFirstRead (loc : MemLoc) (tr : List MemOp) : List MemOp :=
  (tr.takeWhile fun op => !isReadOf loc op).filter (isWriteTo loc)

/-- `INT_MAX` for the 32-bit `int` of the target platform. -/
def INT_MAX : Int := 2147483647

/-- `INT_MIN` for the 32-bit `int` of the target platform. -/
def INT_MIN : Int := -2147483648

/-- Reduction of an integer into the 32-bit two's-complement range,
i.e. arithmetic modulo 2^32 with representatives in
[-2^31, 2^31 - 1]. -/
def wrap32 (z : Int) : Int :=
  let m := z % 4294967296
  if m < 2147483648 then m else m - 4294967296

/-- Initial value of `x` in `ubsan_signed_overflow` (line 117):
`INT_MAX`. -/
def ubsan_signed_overflow.x0 : Int := INT_MAX

/-- Value of `x` after the increment `x++` (line 118) under 32-bit
two's-complement wraparound semantics. -/
def ubsan_signed_overflow.x1 : Int := wrap32 (ubsan_signed_overflow.x0 + 1)

/-- The value `ubsan_signed_overflow` prints (line 119): `x` after the
increment. -/
def ubsan_signed_overflow.printed : Int := ubsan_signed_overflow.x1

/-- Dividend `x` in `ubsan_division_by_zero` (line 130): the
integer 10. -/
def ubsan_division_by_zero.x : Int := 10

/-- Divisor `y` in `ubsan_division_by_zero` (line 131): the
integer 0. -/
def ubsan_division_by_zero.y : Int := 0

/-- `ubsan_division_by_zero` (lines 129-134): compute `x / y` with
`x = 10`, `y = 0` through the guarded integer division. -/
def ubsan_division_by_zero : Except RtError Int :=
  intDiv ubsan_division_by_zero.x ubsan_division_by_zero.y

/-- Effect of one catalog routine on the process-wide globals.  Only
the two threading demonstrations touch `shared_counter` or
`shared_vec`; every other routine works on locals or the heap, so its
global effect is the identity.  For the two racy demonstrations the
result shown is that of the sequential interleaving (one task after
the other); the race means other interleavings exist, but which
routines touch the globals does not depend on the interleaving. -/
def runGlobals : RoutineId → Globals → Globals
  | .tsanDataRaceExample, g =>
      { g with shared_counter :=
          tsan_data_race_increment (tsan_data_race_increment g.shared_counter) }
  | .tsanVectorRaceExample, g =>
      { g with shared_vec :=
          tsan_vector_race (tsan_vector_race g.shared_vec) }
  | _, g => g

/-- No operation in the body of `tsan_data_race_increment` is a
coordination primitive. -/
lemma incBody_no_sync :
    ∀ op ∈ tsan_data_race_increment.body, isSyncOp op = false := by
  intro op hop
  simp only [tsan_data_race_increment.body] at hop
  obtain ⟨a, -, rfl⟩ := List.mem_map.mp hop
  rfl

/-- No operation in the body of `tsan_vector_race` is a coordination
primitive. -/
lemma vecBody_no_sync :
    ∀ op ∈ tsan_vector_race.body, isSyncOp op = false := by
  intro op hop
  simp only [tsan_vector_race.body] at hop
  obtain ⟨a, -, rfl⟩ := List.mem_map.mp hop
  rfl

/-- Folding `+1` over a list adds the list's length. -/
lemma foldl_inc (l : List Nat) (c : Int) :
    l.foldl (fun c _ => c + 1) c = c + l.length := by
  induction l generalizing c with
  | nil => simp
  | cons a l ih =>
      simp only [List.foldl, ih, List.length_cons]
      push_cast
      ring

/-- Folding append-of-singleton over a list appends the list's image. -/
lemma foldl_push (l : List Nat) (v : List Int) :
    l.foldl (fun v i => v ++ [Int.ofNat i]) v = v ++ l.map Int.ofNat := by
  induction l generalizing v with
  | nil => simp
  | cons a l ih =>
      simp only [List.foldl, ih, List.map_cons]
      simp

/-- C1: with no routines enabled (the default), the entry point writes
exactly the fixed banner and trailer to standard output, exits with
status 0, and the output is deterministic — identical regardless of
the ambient state. -/
theorem C1_default_entry_fixed_output (g g' : Globals) :
    (mainEntry g).stdout =
      "Sanitizer Examples\n==================\n\nNo examples executed. Uncomment examples in main() to test.\n" ∧
    (mainEntry g).exitStatus = 0 ∧
    (mainEntry g).stdout = (mainEntry g').stdout :=
  ⟨rfl, rfl, rfl⟩

/-- C2 counterexample: the claim "each category contains between 3 and
5 routines" fails at the concrete category `Threading`, which contains
exactly 2 routines. -/
theorem C2_counterexample :
    ¬ (3 ≤ categoryCount Category.Threading ∧
        categoryCount Category.Threading ≤ 5) := by
  decide

/-- C2 (amended): the catalog has 4 categories, but their sizes are 4
(Addressing), 2 (Threading), 3 (Uninitialized) and 7
(UndefinedBehavior) over 16 routines in total; only Addressing is
exactly 25% of the catalog. -/
theorem C2_catalog_shape :
    allCategories.length = 4 ∧
    categoryCount Category.Addressing = 4 ∧
    categoryCount Category.Threading = 2 ∧
    categoryCount Category.Uninitialized = 3 ∧
    categoryCount Category.UndefinedBehavior = 7 ∧
    catalog.length = 16 ∧
    4 * categoryCount Category.Addressing = catalog.length ∧
    (∀ r : RoutineId, r ∈ catalog) := by
  refine ⟨by decide, by decide, by decide, by decide, by decide, by decide,
    by decide, ?_⟩
  intro r
  cases r <;> decide

/-- C3: `asan_buffer_overflow` declares a 10-element array and writes
at index 15 — 5 elements past the bound — so on any 10-element array
contents the guarded write takes the out-of-bounds error branch. -/
theorem C3_buffer_overflow_oob (arr : List Int)
    (h : arr.length = asan_buffer_overflow.arraySize) :
    asan_buffer_overflow.arraySize = 10 ∧
    asan_buffer_overflow.writeIndex = 15 ∧
    asan_buffer_overflow.writeIndex = asan_buffer_overflow.arraySize + 5 ∧
    asan_buffer_overflow arr = .error .outOfBounds := by
  refine ⟨rfl, rfl, rfl, ?_⟩
  simp only [asan_buffer_overflow, arrayWrite, asan_buffer_overflow.writeIndex, h,
    asan_buffer_overflow.arraySize]
  norm_num

/-- C3 witness: the zero-filled 10-element array satisfies the length
hypothesis, and the routine's write faults on it. -/
theorem C3_buffer_overflow_oob_witness :
    (List.replicate 10 (0 : Int)).length = asan_buffer_overflow.arraySize ∧
    asan_buffer_overflow (List.replicate 10 (0 : Int)) =
      .error .outOfBounds :=
  ⟨by decide, (C3_buffer_overflow_oob (List.replicate 10 0) (by decide)).2.2.2⟩

/-- C4: `ubsan_division_by_zero` divides the integer 10 by the integer
0, so the guarded integer division takes the division-by-zero error
branch. -/
theorem C4_division_by_zero_int :
    ubsan_division_by_zero.x = (10 : Int) ∧
    ubsan_division_by_zero.y = (0 : Int) ∧
    ubsan_division_by_zero = .error .divByZero := by
  refine ⟨rfl, rfl, ?_⟩
  simp [ubsan_division_by_zero, intDiv, ubsan_division_by_zero.y]

/-- C5: `asan_double_free` releases the identical allocation handle
twice — the releases in its heap trace are exactly two frees of one
handle (so no other allocation is released between them), and that
handle is the one it allocated. -/
theorem C5_double_free_same_handle :
    ∃ h, freedHandles asan_double_free.trace = [h, h] ∧
      HeapEvent.alloc h 42 ∈ asan_double_free.trace :=
  ⟨0, by decide, by decide⟩

/-- C6: in each uninitialized-memory routine, no write to the flagged
location precedes the first read of that location (and the flagged
location really is read), whatever value the uninitialized storage
happens to hold. -/
theorem C6_no_init_write_before_read (xVal : Int) :
    (writesBeforeFirstRead msan_uninitialized_read.flagged
        (msan_uninitialized_read.trace xVal) = [] ∧
      (msan_uninitialized_read.trace xVal).any
        (isReadOf msan_uninitialized_read.flagged) = true) ∧
    (writesBeforeFirstRead msan_uninitialized_array.flagged
        msan_uninitialized_array.trace = [] ∧
      msan_uninitialized_array.trace.any
        (isReadOf msan_uninitialized_array.flagged) = true) ∧
    (writesBeforeFirstRead msan_uninitialized_struct.flagged
        msan_uninitialized_struct.trace = [] ∧
      msan_uninitialized_struct.trace.any
        (isReadOf msan_uninitialized_struct.flagged) = true) :=
  ⟨⟨rfl, rfl⟩, ⟨by decide, by decide⟩, ⟨by decide, by decide⟩⟩

/-- C7: each threading demonstration spawns exactly two tasks, no
operation of any spawned task body is a coordination primitive (no
lock, atomic or fence), the calling routine joins every task it
spawned before returning (each join matches a pending spawn and no
spawned task is left unjoined), and every observation of the final
state comes only after both spawned tasks are joined. -/
theorem C7_two_unsynced_tasks_joined :
    (spawnCount tsan_data_race_example.trace = 2 ∧
      (∀ b ∈ spawnedBodies tsan_data_race_example.trace,
        ∀ op ∈ b, isSyncOp op = false) ∧
      allSpawnedJoined tsan_data_race_example.trace [] = true ∧
      observesAfterJoins tsan_data_race_example.trace [] = true) ∧
    (spawnCount tsan_vector_race_example.trace = 2 ∧
      (∀ b ∈ spawnedBodies tsan_vector_race_example.trace,
        ∀ op ∈ b, isSyncOp op = false) ∧
      allSpawnedJoined tsan_vector_race_example.trace [] = true ∧
      observesAfterJoins tsan_vector_race_example.trace [] = true) := by
  refine ⟨⟨rfl, ?_, rfl, rfl⟩, ⟨rfl, ?_, rfl, rfl⟩⟩
  · intro b hb
    rw [show spawnedBodies tsan_data_race_example.trace =
        [tsan_data_race_increment.body, tsan_data_race_increment.body]
      from rfl] at hb
    rcases List.mem_pair.mp hb with h | h <;> exact h ▸ incBody_no_sync
  · intro b hb
    rw [show spawnedBodies tsan_vector_race_example.trace =
        [tsan_vector_race.body, tsan_vector_race.body]
      from rfl] at hb
    rcases List.mem_pair.mp hb with h | h <;> exact h ▸ vecBody_no_sync

/-- C8: the globals `shared_counter` and `shared_vec` are touched only
by the threading routines — every routine outside the `Threading`
category leaves the globals unchanged, as does the entry point's
default path. -/
theorem C8_globals_only_threading :
    (∀ r : RoutineId, category r ≠ Category.Threading →
      ∀ g : Globals, runGlobals r g = g) ∧
    (∀ g : Globals, (mainEntry g).globals = g) := by
  constructor
  · intro r hr g
    cases r <;> first
      | exact absurd rfl hr
      | rfl
  · intro g
    rfl

/-- C8 witness: a non-threading routine (`asan_buffer_overflow`)
applied to a concrete global state leaves it unchanged. -/
theorem C8_globals_only_threading_witness :
    runGlobals RoutineId.asanBufferOverflow
      { shared_counter := 5, shared_vec := [1, 2] } =
      { shared_counter := 5, shared_vec := [1, 2] } :=
  C8_globals_only_threading.1 RoutineId.asanBufferOverflow (by decide)
    { shared_counter := 5, shared_vec := [1, 2] }

/-- C9: `ubsan_signed_overflow` starts from `INT_MAX` and increments
once; under 32-bit two's-complement wraparound (arithmetic modulo
2^32) the result is `INT_MIN = -2147483648`, and that is the value the
routine prints. -/
theorem C9_signed_overflow_wraps :
    ubsan_signed_overflow.x0 = INT_MAX ∧
    ubsan_signed_overflow.x0 = 2147483647 ∧
    ubsan_signed_overflow.x1 = wrap32 (INT_MAX + 1) ∧
    ubsan_signed_overflow.x1 = INT_MIN ∧
    ubsan_signed_overflow.x1 = -2147483648 ∧
    ubsan_signed_overflow.printed = ubsan_signed_overflow.x1 :=
  ⟨rfl, rfl, rfl, by decide, by decide, rfl⟩

/-- C10: both task bodies terminate with their exact iteration counts:
from any starting counter, `tsan_data_race_increment` returns the
counter plus exactly 100000, and from any starting vector,
`tsan_vector_race` returns the vector with exactly 1000 elements (the
values 0..999) appended. -/
theorem C10_task_bodies_total (c : Int) (v : List Int) :
    tsan_data_race_increment c = c + 100000 ∧
    tsan_vector_race v = v ++ (List.range 1000).map Int.ofNat ∧
    (tsan_vector_race v).length = v.length + 1000 := by
  refine ⟨?_, ?_, ?_⟩
  · simp only [tsan_data_race_increment, foldl_inc, List.length_range]
    norm_num
  · simp only [tsan_vector_race, foldl_push]
  · simp only [tsan_vector_race, foldl_push, List.length_append,
      List.length_map, List.length_range]
